import Mathlib

/-!
Formal model of the Fitness Tracker backend (`main.py`).

Stored documents are modelled as Lean structures; calendar dates are
integers (day numbers, so Python's `str(date)` equality coincides with
integer equality), numeric measurements are exact rationals, and the
store-assigned creation timestamp is an integer.  The document store is a
plain list of documents; `get_documents` is filtering (plus an optional
result limit), and the handlers are pure functions of the store contents.
FastAPI/pydantic request validation is modelled by explicit boolean
validators that run before any store interaction, with handlers returning
`Except` values.
-/

/-- A stored workout document (collection `workout`).  `type` and
`duration_min` are optional here because the aggregation code reads them
defensively with `w.get(...)`. -/
structure WorkoutDoc where
  user_email : String
  date : ℤ
  type : Option String
  duration_min : Option ℚ
  created_at : ℤ
deriving DecidableEq, Repr

/-- A stored body-composition document (collection `bodycomposition`). -/
structure BodyCompDoc where
  user_email : String
  date : ℤ
  weight_kg : Option ℚ
  body_fat_pct : Option ℚ
  created_at : ℤ
deriving DecidableEq, Repr

/-- A stored user-profile document (collection `userprofile`). -/
structure ProfileDoc where
  name : String
  email : String
  created_at : ℤ
deriving DecidableEq, Repr

/-- Python tuple comparison on the sort key `(date, created_at)` used by
`docs.sort(key=lambda d: (d.get("date"), d.get("created_at")))`. -/
def keyLe (a b : ℤ × ℤ) : Bool :=
  decide (a.1 < b.1) || (a.1 == b.1 && decide (a.2 ≤ b.2))

/-- The sort key of a workout document. -/
def wkey (w : WorkoutDoc) : ℤ × ℤ := (w.date, w.created_at)

/-- The sort key of a body-composition document. -/
def bkey (b : BodyCompDoc) : ℤ × ℤ := (b.date, b.created_at)

/-- `docs.sort(key=k)`: Python's stable ascending sort. -/
def pySortAscBy {α : Type} (key : α → ℤ × ℤ) (l : List α) : List α :=
  l.mergeSort (fun a b => keyLe (key a) (key b))

/-- `docs.sort(key=k, reverse=True)`: Python's stable descending sort
(equal keys keep their original relative order). -/
def pySortDescBy {α : Type} (key : α → ℤ × ℤ) (l : List α) : List α :=
  l.mergeSort (fun a b => keyLe (key b) (key a))

/-- Round to the nearest integer with ties to even, as Python's `round`. -/
def rhalfEven (q : ℚ) : ℤ :=
  if q - ⌊q⌋ < 1/2 then ⌊q⌋
  else if 1/2 < q - ⌊q⌋ then ⌊q⌋ + 1
  else if ⌊q⌋ % 2 = 0 then ⌊q⌋ else ⌊q⌋ + 1

/-- Python `round(x, 1)`: round to one decimal place. -/
def pyround1 (q : ℚ) : ℚ := (rhalfEven (q * 10) : ℚ) / 10

/-- Character-level worker for `str.title()`: capitalise the first letter
of every alphabetic run, lowercase the rest. -/
def titleChars : List Char → Bool → List Char
  | [], _ => []
  | c :: cs, prevAlpha =>
    (if c.isAlpha then (if prevAlpha then c.toLower else c.toUpper) else c) ::
      titleChars cs c.isAlpha

/-- Python `str.title()`. -/
def pytitle (s : String) : String := String.mk (titleChars s.data false)

/-- `(w.get("type") or "Unknown").title()`: a missing or empty (falsy)
type becomes `"Unknown"`, then the label is title-cased. -/
def normType (t : Option String) : String :=
  pytitle (match t with
    | none => "Unknown"
    | some s => if s = "" then "Unknown" else s)

/-- `float(w.get("duration_min", 0) or 0)`: a missing or `None` duration
counts as 0. -/
def durOf (w : WorkoutDoc) : ℚ := w.duration_min.getD 0

/-- Python dict update `m[k] = m.get(k, 0) + v` on an insertion-ordered
association list. -/
def bumpVol : List (ℤ × ℚ) → ℤ → ℚ → List (ℤ × ℚ)
  | [], k, v => [(k, v)]
  | (k', v') :: rest, k, v =>
    if k' = k then (k', v' + v) :: rest else (k', v') :: bumpVol rest k v

/-- Python dict update `m[k] = m.get(k, 0) + 1` on an insertion-ordered
association list. -/
def bumpType : List (String × ℕ) → String → List (String × ℕ)
  | [], k => [(k, 1)]
  | (k', v') :: rest, k =>
    if k' = k then (k', v' + 1) :: rest else (k', v') :: bumpType rest k

/-- `max(types.values())` (0 on an empty mapping; the code only evaluates
it under a nonempty guard). -/
def maxTypeCount (m : List (String × ℕ)) : ℕ := (m.map Prod.snd).foldl max 0

/-- Python `n or 1` for a natural number. -/
def pyOrOne (n : ℕ) : ℕ := if n = 0 then 1 else n

/-- The streak loop of `insights`: `while str(d) in days_with: current += 1;
d -= 1`, starting at `d` and counting consecutive days present in `D`.
Terminates because each step removes one element of `D` from the days
at or below `d`. -/
def streakFrom (D : Finset ℤ) (d : ℤ) : ℕ :=
  if h : d ∈ D then streakFrom D (d - 1) + 1 else 0
termination_by (D.filter (fun x => x ≤ d)).card
decreasing_by
  apply Finset.card_lt_card
  rw [Finset.ssubset_iff_of_subset]
  · exact ⟨d, Finset.mem_filter.mpr ⟨h, le_refl d⟩, by simp⟩
  · intro x hx
    simp only [Finset.mem_filter] at hx ⊢
    exact ⟨hx.1, by omega⟩

/-- `start = today - timedelta(days=days - 1)`: the lower bound of the
trailing window of `insights`. -/
def windowStart (today : ℤ) (days : ℕ) : ℤ := today - ((days : ℤ) - 1)

/-- The workout fetch of `insights`: equality filter on `user_email` plus
the inclusive window `start ≤ date ≤ today`, no limit. -/
def fetchWorkouts (wstore : List WorkoutDoc) (email : String) (today : ℤ)
    (days : ℕ) : List WorkoutDoc :=
  wstore.filter fun w =>
    w.user_email == email && decide (windowStart today days ≤ w.date)
      && decide (w.date ≤ today)

/-- `total_sessions = len(wdocs)`. -/
def totalSessions (wstore : List WorkoutDoc) (email : String) (today : ℤ)
    (days : ℕ) : ℕ :=
  (fetchWorkouts wstore email today days).length

/-- `total_minutes = sum(float(w.get("duration_min", 0) or 0) ...)`. -/
def totalMinutes (wstore : List WorkoutDoc) (email : String) (today : ℤ)
    (days : ℕ) : ℚ :=
  ((fetchWorkouts wstore email today days).map durOf).sum

/-- `avg_duration = (total_minutes / total_sessions) if total_sessions else 0`
(the unrounded value; the report rounds it on output). -/
def avgRaw (wstore : List WorkoutDoc) (email : String) (today : ℤ)
    (days : ℕ) : ℚ :=
  if totalSessions wstore email today days = 0 then 0
  else totalMinutes wstore email today days /
    (totalSessions wstore email today days : ℚ)

/-- `days_with = {str(w.get("date")) for w in wdocs}` as a finite set of
day numbers (distinct date strings correspond to distinct day numbers). -/
def daysWith (wstore : List WorkoutDoc) (email : String) (today : ℤ)
    (days : ℕ) : Finset ℤ :=
  ((fetchWorkouts wstore email today days).map (fun w => w.date)).toFinset

/-- The current-streak value computed by the backward walk from `today`. -/
def streakDays (wstore : List WorkoutDoc) (email : String) (today : ℤ)
    (days : ℕ) : ℕ :=
  streakFrom (daysWith wstore email today days) today

/-- `by_day[ds] = by_day.get(ds, 0) + duration`. -/
def volumeByDay (wstore : List WorkoutDoc) (email : String) (today : ℤ)
    (days : ℕ) : List (ℤ × ℚ) :=
  (fetchWorkouts wstore email today days).foldl
    (fun m w => bumpVol m w.date (durOf w)) []

/-- `types[t] = types.get(t, 0) + 1` over the normalised type labels. -/
def typesMap (wstore : List WorkoutDoc) (email : String) (today : ℤ)
    (days : ℕ) : List (String × ℕ) :=
  (fetchWorkouts wstore email today days).foldl
    (fun m w => bumpType m (normType w.type)) []

/-- The frequency suggestion string. -/
def sugFreq : String := "Increase frequency: aim for 3-4 sessions per week."

/-- The session-length suggestion string. -/
def sugLen : String := "Bump average session length toward 30–45 minutes."

/-- The variety suggestion string. -/
def sugMix : String := "Balance your routine by mixing different workout types."

/-- `total_sessions < max(3, days // 4)`. -/
def freqCond (wstore : List WorkoutDoc) (email : String) (today : ℤ)
    (days : ℕ) : Bool :=
  decide (totalSessions wstore email today days < max 3 (days / 4))

/-- `avg_duration < 30 and total_sessions >= 3`, on the unrounded average. -/
def lenCond (wstore : List WorkoutDoc) (email : String) (today : ℤ)
    (days : ℕ) : Bool :=
  decide (avgRaw wstore email today days < 30)
    && decide (3 ≤ totalSessions wstore email today days)

/-- `types and max(types.values()) / (total_sessions or 1) > 0.7`. -/
def mixCond (wstore : List WorkoutDoc) (email : String) (today : ℤ)
    (days : ℕ) : Bool :=
  decide (typesMap wstore email today days ≠ [])
    && decide ((7 : ℚ)/10 <
        (maxTypeCount (typesMap wstore email today days) : ℚ) /
          (pyOrOne (totalSessions wstore email today days) : ℚ))

/-- The suggestions list, in source order, each entry independently
appended when its condition holds. -/
def suggestionsList (wstore : List WorkoutDoc) (email : String) (today : ℤ)
    (days : ℕ) : List String :=
  (if freqCond wstore email today days then [sugFreq] else [])
    ++ (if lenCond wstore email today days then [sugLen] else [])
    ++ (if mixCond wstore email today days then [sugMix] else [])

/-- The body-composition fetch of `insights`: the user's full history (no
date filter, no limit), re-sorted ascending by `(date, created_at)`. -/
def fetchBodySorted (bstore : List BodyCompDoc) (email : String) :
    List BodyCompDoc :=
  pySortAscBy bkey (bstore.filter fun b => b.user_email == email)

/-- The weight-change computation of `insights`: with at least two
body-comp entries, subtract the first chronological non-null weight from
the last chronological non-null weight; otherwise `None`. -/
def weightChange (bstore : List BodyCompDoc) (email : String) : Option ℚ :=
  let bdocs := fetchBodySorted bstore email
  if 2 ≤ bdocs.length then
    match bdocs.find? (fun b => b.weight_kg.isSome),
          bdocs.reverse.find? (fun b => b.weight_kg.isSome) with
    | some f, some l => some (l.weight_kg.getD 0 - f.weight_kg.getD 0)
    | _, _ => none
  else none

/-- The report returned by `GET /api/insights`.  `avg_duration` is the
rounded value placed in the response. -/
structure InsightsReport where
  sessions : ℕ
  minutes : ℚ
  avg_duration : ℚ
  streak_days : ℕ
  volume_by_day : List (ℤ × ℚ)
  types : List (String × ℕ)
  suggestions : List String
  weight_change : Option ℚ
deriving DecidableEq, Repr

/-- The `insights` handler: aggregate the user's workouts in the trailing
`days`-day window ending `today` and the full body-comp history. -/
def insights (wstore : List WorkoutDoc) (bstore : List BodyCompDoc)
    (user_email : String) (today : ℤ) (days : ℕ) : InsightsReport :=
  { sessions := totalSessions wstore user_email today days
    minutes := totalMinutes wstore user_email today days
    avg_duration := pyround1 (avgRaw wstore user_email today days)
    streak_days := streakDays wstore user_email today days
    volume_by_day := volumeByDay wstore user_email today days
    types := typesMap wstore user_email today days
    suggestions := suggestionsList wstore user_email today days
    weight_change := weightChange bstore user_email }

/-- `GET /api/profile`: look up by email with limit 1; 404 when no
document matches. -/
def get_profile (pstore : List ProfileDoc) (email : String) :
    Except ℕ ProfileDoc :=
  match (pstore.filter fun p => p.email == email).take 1 with
  | [] => Except.error 404
  | d :: _ => Except.ok d

/-- The query filter of `GET /api/workouts`: equality on `user_email`
plus the optional inclusive date range. -/
def workoutQuery (email : String) (start? end? : Option ℤ)
    (w : WorkoutDoc) : Bool :=
  w.user_email == email
    && (match start? with | none => true | some s => decide (s ≤ w.date))
    && (match end? with | none => true | some e => decide (w.date ≤ e))

/-- `GET /api/workouts`: FastAPI rejects `limit` outside the declared
range `[1, 500]`; otherwise filter, apply the limit, and sort descending
by `(date, created_at)`. -/
def list_workouts (wstore : List WorkoutDoc) (email : String)
    (start? end? : Option ℤ) (limit : ℤ) : Except String (List WorkoutDoc) :=
  if limit < 1 ∨ 500 < limit then Except.error "limit out of declared range"
  else Except.ok (pySortDescBy wkey
    ((wstore.filter (workoutQuery email start? end?)).take limit.toNat))

/-- `GET /api/bodycomp`: FastAPI rejects `limit` outside `[1, 365]`;
otherwise filter by user, apply the limit, and sort descending. -/
def list_bodycomp (bstore : List BodyCompDoc) (email : String)
    (limit : ℤ) : Except String (List BodyCompDoc) :=
  if limit < 1 ∨ 365 < limit then Except.error "limit out of declared range"
  else Except.ok (pySortDescBy bkey
    ((bstore.filter fun b => b.user_email == email).take limit.toNat))

/-- The `WorkoutIn` request model (pydantic). -/
structure WorkoutIn where
  user_email : String
  date : ℤ
  type : String
  duration_min : ℚ
  intensity : Option String := none
  calories : Option ℚ := none
deriving Repr

/-- `Field(None, ge=0)` on an optional numeric field. -/
def optNonneg : Option ℚ → Bool
  | none => true
  | some x => decide (0 ≤ x)

/-- `Field(None, gt=0)` on an optional numeric field. -/
def optPos : Option ℚ → Bool
  | none => true
  | some x => decide (0 < x)

/-- The declared pydantic constraints of `WorkoutIn`:
`duration_min > 0`, `calories ≥ 0` when present. -/
def validWorkoutIn (w : WorkoutIn) : Bool :=
  decide (0 < w.duration_min) && optNonneg w.calories

/-- The `BodyCompIn` request model (pydantic). -/
structure BodyCompIn where
  user_email : String
  date : ℤ
  weight_kg : Option ℚ := none
  body_fat_pct : Option ℚ := none
  waist_cm : Option ℚ := none
  hips_cm : Option ℚ := none
  chest_cm : Option ℚ := none
deriving Repr

/-- The declared pydantic constraints of `BodyCompIn`: `weight_kg > 0`,
`body_fat_pct ∈ [0, 100]`, circumferences `> 0`, each when present. -/
def validBodyCompIn (b : BodyCompIn) : Bool :=
  optPos b.weight_kg
    && (match b.body_fat_pct with
        | none => true
        | some p => decide (0 ≤ p) && decide (p ≤ 100))
    && optPos b.waist_cm && optPos b.hips_cm && optPos b.chest_cm

/-- `POST /api/workouts`: validation happens before the handler runs, so
an invalid body yields an error and the store is untouched. -/
def add_workout (wstore : List WorkoutDoc) (w : WorkoutIn) (now : ℤ) :
    Except String (List WorkoutDoc) :=
  if validWorkoutIn w then
    Except.ok (wstore ++ [⟨w.user_email, w.date, some w.type,
      some w.duration_min, now⟩])
  else Except.error "validation error"

/-- `POST /api/bodycomp`: validation happens before the handler runs. -/
def add_bodycomp (bstore : List BodyCompDoc) (b : BodyCompIn) (now : ℤ) :
    Except String (List BodyCompDoc) :=
  if validBodyCompIn b then
    Except.ok (bstore ++ [⟨b.user_email, b.date, b.weight_kg,
      b.body_fat_pct, now⟩])
  else Except.error "validation error"

/-- Spec-side fetch (written from the spec's words): the workouts of the
user whose date lies in the window `[today − (days−1), today]`. -/
def specFetched (wstore : List WorkoutDoc) (email : String) (today : ℤ)
    (days : ℕ) : List WorkoutDoc :=
  wstore.filter fun w =>
    decide (w.user_email = email ∧ windowStart today days ≤ w.date ∧
      w.date ≤ today)

/-- Spec-side predicate: some fetched workout falls on calendar day `d`. -/
def hasWorkoutOn (wstore : List WorkoutDoc) (email : String) (today : ℤ)
    (days : ℕ) (d : ℤ) : Prop :=
  ∃ w ∈ fetchWorkouts wstore email today days, w.date = d

instance (wstore : List WorkoutDoc) (email : String) (today : ℤ)
    (days : ℕ) (d : ℤ) :
    Decidable (hasWorkoutOn wstore email today days d) :=
  List.decidableBEx _ _

/-- Spec side (weight change): the weights carried by the entries that
have one, in chronological order. -/
def chronoWeights (l : List BodyCompDoc) : List ℚ :=
  (l.filter fun b => b.weight_kg.isSome).map fun b => b.weight_kg.getD 0

/-- Spec side (weight change), written from the spec's words: with at
least two entries, last chronological weight minus first chronological
weight, else `None`. -/
def specWeightChange (l : List BodyCompDoc) : Option ℚ :=
  if 2 ≤ l.length then
    match (chronoWeights l).head?, (chronoWeights l).getLast? with
    | some f, some lw => some (lw - f)
    | _, _ => none
  else none

/-- Store used by the counterexample to the rounded-average reading of the
session-length suggestion: three sessions of 29.96 minutes each. -/
def cexStoreC5 : List WorkoutDoc :=
  [⟨"u", 0, some "run", some (2996/100 : ℚ), 0⟩,
   ⟨"u", 0, some "run", some (2996/100 : ℚ), 1⟩,
   ⟨"u", 0, some "run", some (2996/100 : ℚ), 2⟩]

/-- Invalid `WorkoutIn`: `duration_min = 0` violates `gt=0`. -/
def badDurationIn : WorkoutIn :=
  { user_email := "u", date := 0, type := "Run", duration_min := 0 }

/-- Invalid `BodyCompIn`: `body_fat_pct = 101` violates `le=100`. -/
def badBodyFatIn : BodyCompIn :=
  { user_email := "u", date := 0, body_fat_pct := some 101 }

/-- Invalid `BodyCompIn`: `weight_kg = -1` violates `gt=0`. -/
def badWeightIn : BodyCompIn :=
  { user_email := "u", date := 0, weight_kg := some (-1) }

theorem insights_sessions (w : List WorkoutDoc) (b : List BodyCompDoc)
    (e : String) (t : ℤ) (d : ℕ) :
    (insights w b e t d).sessions = totalSessions w e t d := rfl

theorem insights_minutes (w : List WorkoutDoc) (b : List BodyCompDoc)
    (e : String) (t : ℤ) (d : ℕ) :
    (insights w b e t d).minutes = totalMinutes w e t d := rfl

theorem insights_avg (w : List WorkoutDoc) (b : List BodyCompDoc)
    (e : String) (t : ℤ) (d : ℕ) :
    (insights w b e t d).avg_duration = pyround1 (avgRaw w e t d) := rfl

theorem insights_streak (w : List WorkoutDoc) (b : List BodyCompDoc)
    (e : String) (t : ℤ) (d : ℕ) :
    (insights w b e t d).streak_days = streakDays w e t d := rfl

theorem insights_sug (w : List WorkoutDoc) (b : List BodyCompDoc)
    (e : String) (t : ℤ) (d : ℕ) :
    (insights w b e t d).suggestions = suggestionsList w e t d := rfl

theorem insights_wc (w : List WorkoutDoc) (b : List BodyCompDoc)
    (e : String) (t : ℤ) (d : ℕ) :
    (insights w b e t d).weight_change = weightChange b e := rfl

theorem keyLe_trans (a b c : ℤ × ℤ) (hab : keyLe a b = true)
    (hbc : keyLe b c = true) : keyLe a c = true := by
  simp only [keyLe, Bool.or_eq_true, Bool.and_eq_true, decide_eq_true_eq,
    beq_iff_eq] at *
  omega

theorem keyLe_total (a b : ℤ × ℤ) : (keyLe a b || keyLe b a) = true := by
  simp only [keyLe, Bool.or_eq_true, Bool.and_eq_true, decide_eq_true_eq,
    beq_iff_eq]
  omega

theorem find?_eq_head?_filter {α : Type} (p : α → Bool) (l : List α) :
    l.find? p = (l.filter p).head? := by
  induction l with
  | nil => rfl
  | cons a t ih =>
    cases h : p a
    · simp only [List.find?_cons, List.filter_cons, h, ih]
      rfl
    · simp only [List.find?_cons, List.filter_cons, h]
      rfl

theorem find?_reverse_eq_getLast?_filter {α : Type} (p : α → Bool)
    (l : List α) : l.reverse.find? p = (l.filter p).getLast? := by
  rw [find?_eq_head?_filter, List.filter_reverse, List.head?_reverse]

theorem streakFrom_mem (D : Finset ℤ) :
    ∀ (k : ℕ) (d : ℤ), k < streakFrom D d → (d - k) ∈ D := by
  intro k
  induction k with
  | zero =>
    intro d hd
    by_cases h : d ∈ D
    · simpa using h
    · rw [streakFrom, dif_neg h] at hd
      omega
  | succ n ih =>
    intro d hd
    by_cases h : d ∈ D
    · rw [streakFrom, dif_pos h] at hd
      have hn : n < streakFrom D (d - 1) := by omega
      have hmem := ih (d - 1) hn
      have heq : d - ((n : ℤ) + 1) = d - 1 - n := by ring
      simpa [heq] using hmem
    · rw [streakFrom, dif_neg h] at hd
      omega

theorem streakFrom_nmem (D : Finset ℤ) (d : ℤ) :
    (d - (streakFrom D d : ℤ)) ∉ D := by
  induction d using streakFrom.induct D with
  | case1 d hmem ih =>
    rw [streakFrom, dif_pos hmem]
    have heq : d - ((streakFrom D (d - 1) : ℤ) + 1) =
        d - 1 - (streakFrom D (d - 1) : ℤ) := by ring
    push_cast
    rw [heq]
    exact ih
  | case2 d hmem =>
    rw [streakFrom, dif_neg hmem]
    simpa using hmem

theorem streakFrom_le_card (D : Finset ℤ) (d : ℤ) :
    streakFrom D d ≤ (D.filter (fun x => x ≤ d)).card := by
  induction d using streakFrom.induct D with
  | case1 d hmem ih =>
    rw [streakFrom, dif_pos hmem]
    have hlt : (D.filter (fun x => x ≤ d - 1)).card <
        (D.filter (fun x => x ≤ d)).card := by
      apply Finset.card_lt_card
      rw [Finset.ssubset_iff_of_subset]
      · exact ⟨d, Finset.mem_filter.mpr ⟨hmem, le_refl d⟩, by simp⟩
      · intro x hx
        simp only [Finset.mem_filter] at hx ⊢
        exact ⟨hx.1, by omega⟩
    omega
  | case2 d hmem =>
    rw [streakFrom, dif_neg hmem]
    omega

theorem mem_daysWith (wstore : List WorkoutDoc) (email : String)
    (today : ℤ) (days : ℕ) (x : ℤ) :
    x ∈ daysWith wstore email today days ↔
      hasWorkoutOn wstore email today days x := by
  simp [daysWith, hasWorkoutOn, List.mem_toFinset, List.mem_map]

theorem specFetched_eq (wstore : List WorkoutDoc) (email : String)
    (today : ℤ) (days : ℕ) :
    specFetched wstore email today days =
      fetchWorkouts wstore email today days := by
  unfold specFetched fetchWorkouts
  apply List.filter_congr
  intro x hx
  rw [Bool.eq_iff_iff]
  simp only [decide_eq_true_eq, Bool.and_eq_true, beq_iff_eq]
  tauto

theorem pyround1_zero : pyround1 0 = 0 := by
  norm_num [pyround1, rhalfEven]

/-- Claim C1: the reported `streak_days` counts exactly the consecutive
calendar days ending at (and including) `today` on which a fetched workout
exists: every one of the first `streak_days` days walking backward from
`today` has a workout, the next day back has none, and in particular a
missing workout on `today` forces `streak_days = 0`. -/
theorem streak_days_counts_consecutive_days (wstore : List WorkoutDoc)
    (bstore : List BodyCompDoc) (email : String) (today : ℤ) (days : ℕ) :
    (∀ k : ℕ, k < (insights wstore bstore email today days).streak_days →
        hasWorkoutOn wstore email today days (today - k))
    ∧ ¬ hasWorkoutOn wstore email today days
        (today - ((insights wstore bstore email today days).streak_days : ℤ))
    ∧ (¬ hasWorkoutOn wstore email today days today →
        (insights wstore bstore email today days).streak_days = 0) := by
  rw [insights_streak]
  unfold streakDays
  refine ⟨?_, ?_, ?_⟩
  · intro k hk
    rw [← mem_daysWith]
    exact streakFrom_mem _ k today hk
  · rw [← mem_daysWith]
    exact streakFrom_nmem _ today
  · intro h0
    rw [← mem_daysWith] at h0
    rw [streakFrom, dif_neg h0]

/-- Witness for C1 at a concrete store: the single workout lies on
yesterday, not today, so the claimed consequence gives a zero streak. -/
theorem streak_days_counts_consecutive_days_witness :
    (insights [⟨"u", -1, some "run", some 30, 0⟩] [] "u" 0 30).streak_days
      = 0 :=
  (streak_days_counts_consecutive_days
    [⟨"u", -1, some "run", some 30, 0⟩] [] "u" 0 30).2.2 (by decide)

/-- Claim C10: the streak loop is total (it is a well-founded recursion,
see `streakFrom`), and the resulting `streak_days` never exceeds `days`,
because every fetched workout date lies in the trailing window
`[today − (days−1), today]`. -/
theorem streak_days_le_days (wstore : List WorkoutDoc)
    (bstore : List BodyCompDoc) (email : String) (today : ℤ) (days : ℕ) :
    (insights wstore bstore email today days).streak_days ≤ days := by
  rw [insights_streak]
  unfold streakDays
  have h1 := streakFrom_le_card (daysWith wstore email today days) today
  have h2 : (daysWith wstore email today days).filter (fun x => x ≤ today) ⊆
      Finset.Icc (windowStart today days) today := by
    intro x hx
    rw [Finset.mem_filter, mem_daysWith] at hx
    obtain ⟨⟨w, hw, hwx⟩, -⟩ := hx
    unfold fetchWorkouts at hw
    rw [List.mem_filter] at hw
    simp only [Bool.and_eq_true, decide_eq_true_eq] at hw
    rw [Finset.mem_Icc]
    omega
  have h3 := Finset.card_le_card h2
  have h4 : (Finset.Icc (windowStart today days) today).card = days := by
    rw [Int.card_Icc]
    unfold windowStart
    omega
  omega

/-- Claim C4: the reported totals agree with the spec formulas over the
fetched window `[today − (days−1), today]`: `sessions` is the fetched
count, `minutes` the sum of durations (missing treated as 0), and
`avg_duration` their quotient rounded to one decimal place, or 0 when
there are no sessions. -/
theorem totals_spec (wstore : List WorkoutDoc) (bstore : List BodyCompDoc)
    (email : String) (today : ℤ) (days : ℕ) :
    (insights wstore bstore email today days).sessions =
        (specFetched wstore email today days).length
    ∧ (insights wstore bstore email today days).minutes =
        ((specFetched wstore email today days).map durOf).sum
    ∧ (insights wstore bstore email today days).avg_duration =
        (if (specFetched wstore email today days).length = 0 then 0
         else pyround1 (((specFetched wstore email today days).map durOf).sum /
           ((specFetched wstore email today days).length : ℚ))) := by
  rw [insights_sessions, insights_minutes, insights_avg, specFetched_eq]
  refine ⟨rfl, rfl, ?_⟩
  unfold avgRaw totalSessions totalMinutes
  by_cases h : (fetchWorkouts wstore email today days).length = 0
  · rw [if_pos h, if_pos h]
    exact pyround1_zero
  · rw [if_neg h, if_neg h]

theorem mem_suggestionsList (wstore : List WorkoutDoc) (email : String)
    (today : ℤ) (days : ℕ) (s : String) :
    s ∈ suggestionsList wstore email today days ↔
      ((freqCond wstore email today days = true ∧ s = sugFreq)
        ∨ (lenCond wstore email today days = true ∧ s = sugLen)
        ∨ (mixCond wstore email today days = true ∧ s = sugMix)) := by
  unfold suggestionsList
  split_ifs with h1 h2 h3 <;> simp_all [List.mem_append]

/-- Claim C3: the frequency suggestion is present in the report exactly
when `total_sessions < max(3, days // 4)` (integer division). -/
theorem frequency_suggestion_iff (wstore : List WorkoutDoc)
    (bstore : List BodyCompDoc) (email : String) (today : ℤ) (days : ℕ) :
    sugFreq ∈ (insights wstore bstore email today days).suggestions ↔
      (insights wstore bstore email today days).sessions <
        max 3 (days / 4) := by
  rw [insights_sug, insights_sessions, mem_suggestionsList]
  constructor
  · rintro (⟨hc, -⟩ | ⟨-, hs⟩ | ⟨-, hs⟩)
    · unfold freqCond at hc
      exact of_decide_eq_true hc
    · exact absurd hs (by decide)
    · exact absurd hs (by decide)
  · intro h
    refine Or.inl ⟨?_, rfl⟩
    unfold freqCond
    exact decide_eq_true h

/-- Claim C9: the variety-suggestion ratio never divides by zero: a
nonempty `types` mapping forces at least one fetched session, in which
case the Python `total_sessions or 1` divisor is `total_sessions` itself,
and that divisor is positive for every fetched list, empty or not. -/
theorem mix_ratio_divisor_positive (wstore : List WorkoutDoc)
    (email : String) (today : ℤ) (days : ℕ) :
    typesMap wstore email today days ≠ [] →
      (0 < totalSessions wstore email today days
       ∧ pyOrOne (totalSessions wstore email today days) =
           totalSessions wstore email today days
       ∧ (0 : ℚ) < (pyOrOne (totalSessions wstore email today days) : ℚ)) := by
  intro h
  have hs : totalSessions wstore email today days ≠ 0 := by
    intro h0
    apply h
    have hfe : fetchWorkouts wstore email today days = [] :=
      List.length_eq_zero.mp h0
    unfold typesMap
    rw [hfe]
    rfl
  refine ⟨Nat.pos_of_ne_zero hs, ?_, ?_⟩
  · unfold pyOrOne
    rw [if_neg hs]
  · unfold pyOrOne
    rw [if_neg hs]
    exact_mod_cast Nat.pos_of_ne_zero hs

/-- Witness for C9: a store with one workout today yields a nonempty
types mapping, a session count of 1, and the divisor 1. -/
theorem mix_ratio_divisor_positive_witness :
    0 < totalSessions [⟨"u", 0, some "run", some 30, 0⟩] "u" 0 30
    ∧ pyOrOne (totalSessions [⟨"u", 0, some "run", some 30, 0⟩] "u" 0 30) =
        totalSessions [⟨"u", 0, some "run", some 30, 0⟩] "u" 0 30
    ∧ (0 : ℚ) <
        (pyOrOne (totalSessions [⟨"u", 0, some "run", some 30, 0⟩] "u" 0 30)
          : ℚ) :=
  mix_ratio_divisor_positive [⟨"u", 0, some "run", some 30, 0⟩] "u" 0 30
    (by decide)

theorem cex_fetch : fetchWorkouts cexStoreC5 "u" 0 30 = cexStoreC5 := rfl

theorem cex_sessions : totalSessions cexStoreC5 "u" 0 30 = 3 := rfl

theorem cex_minutes : totalMinutes cexStoreC5 "u" 0 30 = 2247/25 := by
  unfold totalMinutes
  rw [cex_fetch]
  norm_num [cexStoreC5, durOf, List.sum_cons]

theorem cex_avgRaw : avgRaw cexStoreC5 "u" 0 30 = 749/25 := by
  unfold avgRaw
  rw [cex_minutes, cex_sessions]
  norm_num

theorem cex_rounded : pyround1 (749/25) = 30 := by
  unfold pyround1 rhalfEven
  norm_num

theorem cex_lenCond : lenCond cexStoreC5 "u" 0 30 = true := by
  unfold lenCond
  rw [cex_avgRaw, cex_sessions]
  simp only [Bool.and_eq_true, decide_eq_true_eq]
  norm_num

/-- Counterexample to claim C5 as stated: with three sessions of 29.96
minutes, the report's (rounded) `avg_duration` is exactly 30, yet the
session-length suggestion is present, because the code applies the
`< 30` threshold to the unrounded average (29.96). -/
theorem length_suggestion_rounded_cex :
    ¬ (sugLen ∈ (insights cexStoreC5 [] "u" 0 30).suggestions ↔
        ((insights cexStoreC5 [] "u" 0 30).avg_duration < 30
          ∧ 3 ≤ (insights cexStoreC5 [] "u" 0 30).sessions)) := by
  intro hiff
  have hmem : sugLen ∈ (insights cexStoreC5 [] "u" 0 30).suggestions := by
    rw [insights_sug, mem_suggestionsList]
    exact Or.inr (Or.inl ⟨cex_lenCond, rfl⟩)
  have hlt := (hiff.mp hmem).1
  rw [insights_avg, cex_avgRaw, cex_rounded] at hlt
  exact absurd hlt (by norm_num)

/-- Claim C5 (amended): the session-length suggestion is included iff the
UNROUNDED average `total_minutes / total_sessions` (0 when there are no
sessions) is below 30 and `total_sessions ≥ 3`; the code applies the
threshold before the one-decimal rounding used for the reported
`avg_duration`. -/
theorem length_suggestion_iff_unrounded (wstore : List WorkoutDoc)
    (bstore : List BodyCompDoc) (email : String) (today : ℤ) (days : ℕ) :
    sugLen ∈ (insights wstore bstore email today days).suggestions ↔
      (avgRaw wstore email today days < 30
        ∧ 3 ≤ (insights wstore bstore email today days).sessions) := by
  rw [insights_sug, insights_sessions, mem_suggestionsList]
  constructor
  · rintro (⟨-, hs⟩ | ⟨hc, -⟩ | ⟨-, hs⟩)
    · exact absurd hs (by decide)
    · unfold lenCond at hc
      simp only [Bool.and_eq_true, decide_eq_true_eq] at hc
      exact hc
    · exact absurd hs (by decide)
  · intro h
    refine Or.inr (Or.inl ⟨?_, rfl⟩)
    unfold lenCond
    simp only [Bool.and_eq_true, decide_eq_true_eq]
    exact h

theorem pySort_reverse_perm {α : Type} (key : α → ℤ × ℤ) (l : List α) :
    ((pySortAscBy key l).reverse).Perm (pySortDescBy key l) :=
  (((pySortAscBy key l).reverse_perm).trans (l.mergeSort_perm _)).trans
    (l.mergeSort_perm _).symm

theorem pySort_desc_sorted {α : Type} (key : α → ℤ × ℤ) (l : List α) :
    List.Pairwise (fun a b => keyLe (key b) (key a) = true)
      (pySortDescBy key l) :=
  List.sorted_mergeSort
    (fun a b c hab hbc => keyLe_trans (key c) (key b) (key a) hbc hab)
    (fun a b => keyLe_total (key b) (key a)) l

theorem pySort_asc_rev_sorted {α : Type} (key : α → ℤ × ℤ) (l : List α) :
    List.Pairwise (fun a b => keyLe (key b) (key a) = true)
      ((pySortAscBy key l).reverse) := by
  rw [List.pairwise_reverse]
  exact List.sorted_mergeSort
    (fun a b c hab hbc => keyLe_trans (key a) (key b) (key c) hab hbc)
    (fun a b => keyLe_total (key a) (key b)) l

/-- Claim C6: the list endpoints sort descending by `(date, created_at)`
and the insights aggregator re-sorts ascending by the same key; for any
fixed fetched records, reversing the aggregator's ascending order is
consistent with the endpoints' descending order: it is a permutation of
it and is itself in descending key order (as is the endpoints' output). -/
theorem sort_order_consistency (lw : List WorkoutDoc)
    (lb : List BodyCompDoc) :
    ((pySortAscBy wkey lw).reverse).Perm (pySortDescBy wkey lw)
    ∧ List.Pairwise (fun a b => keyLe (wkey b) (wkey a) = true)
        ((pySortAscBy wkey lw).reverse)
    ∧ List.Pairwise (fun a b => keyLe (wkey b) (wkey a) = true)
        (pySortDescBy wkey lw)
    ∧ ((pySortAscBy bkey lb).reverse).Perm (pySortDescBy bkey lb)
    ∧ List.Pairwise (fun a b => keyLe (bkey b) (bkey a) = true)
        ((pySortAscBy bkey lb).reverse)
    ∧ List.Pairwise (fun a b => keyLe (bkey b) (bkey a) = true)
        (pySortDescBy bkey lb) :=
  ⟨pySort_reverse_perm wkey lw, pySort_asc_rev_sorted wkey lw,
   pySort_desc_sorted wkey lw, pySort_reverse_perm bkey lb,
   pySort_asc_rev_sorted bkey lb, pySort_desc_sorted bkey lb⟩

/-- Claim C7: a profile lookup with zero matching documents fails with
404, while the workout and body-comp list endpoints return an empty
sequence (not an error) when no records match their filters. -/
theorem profile_404_lists_empty (pstore : List ProfileDoc)
    (wstore : List WorkoutDoc) (bstore : List BodyCompDoc)
    (email : String) (s e : Option ℤ) :
    ((pstore.filter fun p => p.email == email) = [] →
        get_profile pstore email = Except.error 404)
    ∧ ((wstore.filter (workoutQuery email s e)) = [] →
        list_workouts wstore email s e 50 = Except.ok [])
    ∧ ((bstore.filter fun b => b.user_email == email) = [] →
        list_bodycomp bstore email 30 = Except.ok []) := by
  refine ⟨?_, ?_, ?_⟩
  · intro h
    unfold get_profile
    rw [h]
    rfl
  · intro h
    unfold list_workouts
    rw [if_neg (by norm_num), h]
    simp [pySortDescBy]
  · intro h
    unfold list_bodycomp
    rw [if_neg (by norm_num), h]
    simp [pySortDescBy]

/-- Witness for C7 on the empty store: the profile lookup 404s and both
lists come back empty. -/
theorem profile_404_lists_empty_witness :
    get_profile [] "a" = Except.error 404
    ∧ list_workouts [] "a" none none 50 = Except.ok []
    ∧ list_bodycomp [] "a" 30 = Except.ok [] :=
  ⟨(profile_404_lists_empty [] [] [] "a" none none).1 rfl,
   (profile_404_lists_empty [] [] [] "a" none none).2.1 rfl,
   (profile_404_lists_empty [] [] [] "a" none none).2.2 rfl⟩

/-- Claim C8: out-of-bounds inputs are rejected with a validation error
before any store interaction: a workout with `duration_min = 0`, a
body-comp entry with `body_fat_pct = 101` or `weight_kg = -1`, and a
workout-list request with `limit = 501` all fail, for every store state
(the store is never consulted and never modified). -/
theorem out_of_bounds_inputs_rejected (wstore : List WorkoutDoc)
    (bstore : List BodyCompDoc) (now : ℤ) (email : String)
    (s e : Option ℤ) :
    add_workout wstore badDurationIn now = Except.error "validation error"
    ∧ add_bodycomp bstore badBodyFatIn now = Except.error "validation error"
    ∧ add_bodycomp bstore badWeightIn now = Except.error "validation error"
    ∧ list_workouts wstore email s e 501 =
        Except.error "limit out of declared range" := by
  refine ⟨?_, ?_, ?_, ?_⟩
  · unfold add_workout
    rw [if_neg]
    rw [Bool.not_eq_true]
    rfl
  · unfold add_bodycomp
    rw [if_neg]
    rw [Bool.not_eq_true]
    rfl
  · unfold add_bodycomp
    rw [if_neg]
    rw [Bool.not_eq_true]
    rfl
  · unfold list_workouts
    rw [if_pos (by norm_num)]

theorem weightChange_eq_spec (bstore : List BodyCompDoc) (email : String) :
    weightChange bstore email =
      specWeightChange (fetchBodySorted bstore email) := by
  unfold weightChange specWeightChange
  by_cases h2 : 2 ≤ (fetchBodySorted bstore email).length
  · rw [if_pos h2, if_pos h2]
    rw [find?_eq_head?_filter, find?_reverse_eq_getLast?_filter]
    unfold chronoWeights
    rw [List.head?_map, List.getLast?_map]
    cases hh : ((fetchBodySorted bstore email).filter
        (fun b => b.weight_kg.isSome)).head? <;>
      cases hg : ((fetchBodySorted bstore email).filter
          (fun b => b.weight_kg.isSome)).getLast? <;>
        simp
  · rw [if_neg h2, if_neg h2]

/-- Claim C2: `weight_change` is computed over the user's full body-comp
history sorted ascending by `(date, created_at)`: it is last non-null
weight minus first non-null weight when both exist and at least two
entries exist, else `None`; and when exactly one entry carries a weight
(among at least two entries) the result degenerates to 0. -/
theorem weight_change_spec (wstore : List WorkoutDoc)
    (bstore : List BodyCompDoc) (email : String) (today : ℤ) (days : ℕ) :
    (insights wstore bstore email today days).weight_change =
        specWeightChange (fetchBodySorted bstore email)
    ∧ (2 ≤ (fetchBodySorted bstore email).length →
        (fetchBodySorted bstore email).countP
            (fun b => b.weight_kg.isSome) = 1 →
        (insights wstore bstore email today days).weight_change =
          some 0) := by
  have hmain : (insights wstore bstore email today days).weight_change =
      specWeightChange (fetchBodySorted bstore email) := by
    rw [insights_wc]
    exact weightChange_eq_spec bstore email
  refine ⟨hmain, ?_⟩
  intro h2 h1
  rw [hmain]
  unfold specWeightChange
  rw [if_pos h2]
  rw [List.countP_eq_length_filter] at h1
  obtain ⟨b, hb⟩ := List.length_eq_one.mp h1
  unfold chronoWeights
  rw [hb]
  simp

/-- Witness for C2's degenerate case: two entries, exactly one of which
carries a weight, give `weight_change = 0`. -/
theorem weight_change_spec_witness :
    (insights [] [⟨"u", 10, some 80, none, 0⟩, ⟨"u", 30, none, none, 1⟩]
        "u" 0 30).weight_change = some 0 := by
  have hperm := List.mergeSort_perm
    (([⟨"u", 10, some 80, none, 0⟩, ⟨"u", 30, none, none, 1⟩] :
        List BodyCompDoc).filter (fun b => b.user_email == "u"))
    (fun a b => keyLe (bkey a) (bkey b))
  have hlen : 2 ≤ (fetchBodySorted
      [⟨"u", 10, some 80, none, 0⟩, ⟨"u", 30, none, none, 1⟩] "u").length := by
    unfold fetchBodySorted pySortAscBy
    rw [hperm.length_eq]
    rfl
  have hcnt : (fetchBodySorted
      [⟨"u", 10, some 80, none, 0⟩, ⟨"u", 30, none, none, 1⟩] "u").countP
        (fun b => b.weight_kg.isSome) = 1 := by
    unfold fetchBodySorted pySortAscBy
    rw [hperm.countP_eq]
    rfl
  exact (weight_change_spec []
    [⟨"u", 10, some 80, none, 0⟩, ⟨"u", 30, none, none, 1⟩] "u" 0 30).2
    hlen hcnt
